import Mathlib

/-!
Verification development for the Akalysis repository (Akash Network cost
dashboard).  The repository's charting frontend
(`dashboard/akalysis/src/components/cost_breakdown.js`,
`ProviderComparison.js`, `resource_usage.js`, `App.js`) is embedded
shallowly below; JavaScript numbers are modelled as exact rationals,
JavaScript objects used as string-keyed maps are modelled as association
lists in key-insertion order (which is what `Object.values` iterates for
non-index string keys).  `Array.prototype.sort` with a consistent
comparison function `c` is modelled as the stable sort that keeps `a`
before `b` whenever `c a b ≤ 0`; for a comparator that is not a
consistent comparison function ECMAScript leaves the sort order
implementation-defined, which is modelled relationally: any permutation
of the input is an allowed outcome.

The Python backend (`data/data_processing_scripts/aggregate_data.py`,
`data/api_server.py`, the cost estimator) is not part of the source tree;
the definitions for it are modelled from the specification and are marked
as such in their doc comments.
-/

namespace Akalysis

/-! ## Data shapes consumed by cost_breakdown.js

Each record (`item`) carries an optional precomputed `date` string, a raw
`timestamp`, an optional `lease_id` object holding the owner and provider
chain addresses, and an optional `pricing` object whose `daily_cost_usd`
field may itself be absent. -/

structure Pricing where
  daily_cost_usd : Option ℚ
deriving DecidableEq


structure LeaseId where
  owner : Option String
  provider : Option String
deriving DecidableEq


structure Item where
  date : Option String
  timestamp : Int
  lease_id : Option LeaseId
  pricing : Option Pricing
deriving DecidableEq


/-- Embedding of the expression `item.pricing?.daily_cost_usd || 0`
(cost_breakdown.js lines 45, 64, 188, 194, 200).  The optional chain
yields `undefined` when `pricing` or its `daily_cost_usd` field is
absent, and `|| 0` turns that into `0`; a present value of `0` is falsy
and is likewise replaced by `0`, which is the same value. -/
def costOf (i : Item) : ℚ :=
  (i.pricing.bind Pricing.daily_cost_usd).getD 0


/-- Embedding of `item.date || new Date(item.timestamp).toLocaleDateString()`
(cost_breakdown.js line 37).  `toLocaleDateString` is locale and
environment dependent, so it is threaded as an explicit parameter `fmt`;
an absent or empty (falsy) `date` string falls back to `fmt`. -/
def dateKeyOf (fmt : Int → String) (i : Item) : String :=
  match i.date with
  | some d => if d = "" then fmt i.timestamp else d
  | none => fmt i.timestamp


/-- Embedding of
`item.lease_id?.provider?.substring(0, 10) + '...' || 'Unknown'`
(cost_breakdown.js line 56, resource_usage.js line 59).  Due to operator
precedence the concatenation binds tighter than `||`: when the provider
is absent the optional chain yields `undefined`, and
`undefined + '...'` is the string `"undefined..."`, which is truthy, so
the `|| 'Unknown'` branch is unreachable. -/
def providerKeyOf (i : Item) : String :=
  let concat :=
    match i.lease_id.bind LeaseId.provider with
    | some p => p.take 10 ++ "..."
    | none => "undefined..."
  if concat = "" then "Unknown" else concat


/-! ## JavaScript objects as string-keyed maps

A plain JS object used as a dictionary with non-index string keys
enumerates its values in key-insertion order, so it is embedded as an
association list where a fresh key is appended at the end. -/

def alookup {β : Type} (k : String) : List (String × β) → Option β
  | [] => none
  | (a, v) :: rest => if a = k then some v else alookup k rest


def upsert {β : Type} (k : String) (init : β) (f : β → β) :
    List (String × β) → List (String × β)
  | [] => [(k, f init)]
  | (a, v) :: rest =>
      if a = k then (a, f v) :: rest else (a, v) :: upsert k init f rest


/-- Accumulator object of the two `reduce` groupings in cost_breakdown.js.
The time-series grouping creates `{date, totalCost: 0, count: 0}` and the
provider grouping creates `{name, cost: 0, leases: 0}`; both then add the
item's daily cost to the rational field and `1` to the counter, so a
single shape (`name`, `cost`, `leases`) embeds both. -/
structure GroupAcc where
  name : String
  cost : ℚ
  leases : ℕ
deriving DecidableEq


/-- One step of `data.reduce((acc, item) => ...)`: create the entry on
first sight of the key, then `acc[key].cost += costOf item` and
`acc[key].leases += 1`. -/
def groupStep (key : Item → String) (acc : List (String × GroupAcc))
    (i : Item) : List (String × GroupAcc) :=
  upsert (key i) ⟨key i, 0, 0⟩
    (fun g => ⟨g.name, g.cost + costOf i, g.leases + 1⟩) acc


def groupFold (key : Item → String) (data : List Item) :
    List (String × GroupAcc) :=
  data.foldl (groupStep key) []


/-- Embedding of `Array.prototype.slice(-n)`: the last `n` elements. -/
def sliceLast {α : Type} (n : ℕ) (l : List α) : List α :=
  l.drop (l.length - n)


/-- Embedding of `processTimeSeriesData` (cost_breakdown.js lines 34-51):
group by date key, take `Object.values`, keep the last 30 entries. -/
def processTimeSeriesData (fmt : Int → String) (data : List Item) :
    List GroupAcc :=
  sliceLast 30 ((groupFold (dateKeyOf fmt) data).map Prod.snd)


/-- Model of the comparator `(a, b) => b.cost - a.cost`
(cost_breakdown.js line 70): `a` stays before `b` exactly when the
comparator is `≤ 0`, i.e. when `b.cost ≤ a.cost`. -/
def costDescRel (a b : GroupAcc) : Prop := b.cost ≤ a.cost


instance : DecidableRel costDescRel :=
  fun a b => inferInstanceAs (Decidable (b.cost ≤ a.cost))


instance : IsTotal GroupAcc costDescRel :=
  ⟨fun a b => le_total b.cost a.cost⟩


instance : IsTrans GroupAcc costDescRel :=
  ⟨fun _ _ _ h1 h2 => le_trans h2 h1⟩


/-- Embedding of `processProviderData` (cost_breakdown.js lines 53-72):
group by provider label, take `Object.values`, sort by summed cost
descending (stable), keep the first 6 entries. -/
def processProviderData (data : List Item) : List GroupAcc :=
  (List.insertionSort costDescRel
    ((groupFold providerKeyOf data).map Prod.snd)).take 6


/-! ## The cost statistics block (cost_breakdown.js lines 177-204) -/

/-- Total Deployments statistic: `data.length`. -/
def totalDeployments (data : List Item) : ℕ := data.length


/-- Numerator of the Avg Cost per Deployment statistic:
`data.reduce((sum, item) => sum + (item.pricing?.daily_cost_usd || 0), 0)`. -/
def sumCosts (data : List Item) : ℚ := (data.map costOf).sum


/-- List of per-item daily costs, as spread into `Math.max` / `Math.min`:
`data.map(item => item.pricing?.daily_cost_usd || 0)`. -/
def costsList (data : List Item) : List ℚ := data.map costOf


/-- Avg Cost per Deployment statistic (cost_breakdown.js line 188):
the summed daily cost divided by `data.length`. -/
def avgCostPerDeployment (data : List Item) : ℚ :=
  sumCosts data / (data.length : ℚ)


/-- Maximum of a list of rationals, standing for `Math.max(...xs)`.
`Math.max()` of an empty spread is `-Infinity`, which has no rational
counterpart; the empty case is unreachable behind the component's
empty-data guard and is given the placeholder value `0`. -/
def jsMax : List ℚ → ℚ
  | [] => 0
  | x :: xs => xs.foldl max x


/-- Minimum of a list of rationals, standing for `Math.min(...xs)`;
the empty case is unreachable, as for `jsMax`. -/
def jsMin : List ℚ → ℚ
  | [] => 0
  | x :: xs => xs.foldl min x


/-- The values computed inside the non-empty branch of the CostBreakdown
component: the two chart inputs and the four statistics. -/
structure CBStats where
  total : ℕ
  avg : ℚ
  highest : ℚ
  lowest : ℚ
  series : List GroupAcc
  providers : List GroupAcc
deriving DecidableEq


def cbStats (fmt : Int → String) (d : List Item) : CBStats :=
  { total := totalDeployments d
    avg := avgCostPerDeployment d
    highest := jsMax (costsList d)
    lowest := jsMin (costsList d)
    series := processTimeSeriesData fmt d
    providers := processProviderData d }


/-- Rendering outcome of the CostBreakdown component: either the
empty-state block or the chart grid with its statistics. -/
inductive CBView where
  | emptyState : CBView
  | charts : CBStats → CBView
deriving DecidableEq


/-- Embedding of the CostBreakdown component (cost_breakdown.js lines
21-31 and 91-207): `if (!data || data.length === 0)` return the
empty state, otherwise compute and render the charts and statistics. -/
def costBreakdown (fmt : Int → String) (data : Option (List Item)) :
    CBView :=
  match data with
  | none => CBView.emptyState
  | some d =>
      if d.length = 0 then CBView.emptyState
      else CBView.charts (cbStats fmt d)


/-! ## Characterisation of the groupings

`filterTotal`/`filterCount` describe, per key, what the grouped
accumulators hold; the bridge lemmas below prove that the `reduce`-style
fold agrees with them. -/

def filterTotal (key : Item → String) (k : String) (data : List Item) : ℚ :=
  ((data.filter (fun i => key i = k)).map costOf).sum


def filterCount (key : Item → String) (k : String) (data : List Item) : ℕ :=
  (data.filter (fun i => key i = k)).length


/-- Summed cost recorded in the grouped object under key `k`
(either grouping of cost_breakdown.js), read off the fold itself. -/
def groupCostAt (key : Item → String) (k : String) (data : List Item) : ℚ :=
  ((alookup k (groupFold key data)).map GroupAcc.cost).getD 0


/-- Record count recorded in the grouped object under key `k`. -/
def groupLeasesAt (key : Item → String) (k : String) (data : List Item) : ℕ :=
  ((alookup k (groupFold key data)).map GroupAcc.leases).getD 0


/-! ## Concrete sample items used in the closed examples below -/

/-- Concrete stand-in for `toLocaleDateString`, used only in closed
examples whose items all carry an explicit `date` field, so its value is
never consulted there. -/
def fmt0 : Int → String := fun _ => ""


def itemA : Item :=
  { date := some "2025-11-01", timestamp := 0,
    lease_id := some ⟨some "ownerA", some "provider1addr"⟩,
    pricing := some ⟨some 1⟩ }


def itemB : Item :=
  { date := some "2025-11-02", timestamp := 0,
    lease_id := some ⟨some "ownerB", some "provider2addr"⟩,
    pricing := some ⟨some 2⟩ }


def itemNoProvider : Item :=
  { date := some "2025-11-01", timestamp := 0,
    lease_id := none, pricing := none }


def itemNoPricing : Item :=
  { date := some "2025-11-03", timestamp := 0,
    lease_id := some ⟨some "owner9", some "provider9addr"⟩,
    pricing := none }


/-! ## ProviderComparison.js — the sortable provider table

A provider row may carry either backend field names
(`provider_address`, `lease_count`) or frontend ones (`name`,
`total_leases`); the component reads them through `||` fallback
chains. -/

structure PRow where
  provider_address : Option String
  name : Option String
  lease_count : Option ℕ
  total_leases : Option ℕ
  total_monthly_usd : Option ℚ
  average_daily_usd : Option ℚ
  unique_owners : Option ℕ
deriving DecidableEq


/-- JS `x || d` for a string-valued field: absent values and the empty
string are falsy. -/
def strOrJS (x : Option String) (d : String) : String :=
  match x with
  | some s => if s = "" then d else s
  | none => d


/-- JS `x || d` for a count-valued field: absent values and `0` are
falsy. -/
def natOrJS (x : Option ℕ) (d : ℕ) : ℕ :=
  match x with
  | some n => if n = 0 then d else n
  | none => d


/-- JS `x || d` for a rational-valued field: absent values and `0` are
falsy. -/
def ratOrJS (x : Option ℚ) (d : ℚ) : ℚ :=
  match x with
  | some q => if q = 0 then d else q
  | none => d


/-- Sort key `a.provider_address || a.name || ''` (ProviderComparison.js
lines 33-34). -/
def providerVal (a : PRow) : String :=
  strOrJS a.provider_address (strOrJS a.name "")


/-- Sort key `a.lease_count || a.total_leases || 0` (lines 37-38). -/
def leasesVal (a : PRow) : ℕ :=
  natOrJS a.lease_count (natOrJS a.total_leases 0)


/-- Sort key `a.total_monthly_usd || 0` (lines 41-42). -/
def costVal (a : PRow) : ℚ := ratOrJS a.total_monthly_usd 0


/-- Sort key `a.average_daily_usd || 0` (lines 45-46). -/
def avgCostVal (a : PRow) : ℚ := ratOrJS a.average_daily_usd 0


/-- Sort key `a.unique_owners || 0` (lines 49-50). -/
def ownersVal (a : PRow) : ℕ := natOrJS a.unique_owners 0


inductive SortField where
  | provider
  | leases
  | cost
  | avgCost
  | owners
deriving DecidableEq


inductive SortDir where
  | asc
  | desc
deriving DecidableEq


/-- Embedding of the comparator passed to `[...data].sort`
(ProviderComparison.js lines 28-61): ascending runs
`aVal > bVal ? 1 : -1`, descending runs `aVal < bVal ? 1 : -1`.  On a
tie neither comparison holds, so the comparator returns `-1` for both
argument orders and never returns `0`; it never consults the provider
address unless `sortField` is `'provider'`. -/
def pcCompare (field : SortField) (dir : SortDir) (a b : PRow) : Int :=
  match field, dir with
  | .provider, .asc => if providerVal b < providerVal a then 1 else -1
  | .provider, .desc => if providerVal a < providerVal b then 1 else -1
  | .leases, .asc => if leasesVal b < leasesVal a then 1 else -1
  | .leases, .desc => if leasesVal a < leasesVal b then 1 else -1
  | .cost, .asc => if costVal b < costVal a then 1 else -1
  | .cost, .desc => if costVal a < costVal b then 1 else -1
  | .avgCost, .asc => if avgCostVal b < avgCostVal a then 1 else -1
  | .avgCost, .desc => if avgCostVal a < avgCostVal b then 1 else -1
  | .owners, .asc => if ownersVal b < ownersVal a then 1 else -1
  | .owners, .desc => if ownersVal a < ownersVal b then 1 else -1


/-- Conditions ECMAScript places on a "consistent comparison function"
(the hypothesis under which `Array.prototype.sort` promises a stable,
comparator-ordered result): the two argument orders of a pair yield
results of opposite sign or both zero, and the induced strict order and
equivalence are transitive. -/
def consistentComparator {α : Type} (c : α → α → Int) : Prop :=
  (∀ a b, c a b = 0 ↔ c b a = 0)
  ∧ (∀ a b, c a b < 0 ↔ 0 < c b a)
  ∧ (∀ a b d, c a b < 0 → c b d < 0 → c a d < 0)
  ∧ (∀ a b d, c a b = 0 → c b d = 0 → c a d = 0)

/-- The stable sort keeping `a` before `b` whenever `c a b ≤ 0` — what
`Array.prototype.sort` returns for a consistent comparison function. -/
def stableSortBy (c : PRow → PRow → Int) (l : List PRow) : List PRow :=
  @List.insertionSort PRow (fun a b => c a b ≤ 0)
    (fun a b => inferInstanceAs (Decidable (c a b ≤ 0))) l

/-- Embedding of `[...data].sort(comparator)` (ProviderComparison.js
line 28) as a relation between the input and an allowed output: the
output is a permutation of the input, and when the comparator is a
consistent comparison function it is the stable comparator-ordered
permutation.  For a comparator that is not consistent, ECMAScript
leaves the sort order implementation-defined, so every permutation is
an allowed outcome. -/
def sortOutcome (c : PRow → PRow → Int) (input output : List PRow) :
    Prop :=
  input.Perm output
  ∧ (consistentComparator c → output = stableSortBy c input)


def rowZ : PRow :=
  { provider_address := some "zzzprovider", name := none,
    lease_count := none, total_leases := none,
    total_monthly_usd := some 5, average_daily_usd := none,
    unique_owners := none }


def rowA : PRow :=
  { provider_address := some "aaaprovider", name := none,
    lease_count := none, total_leases := none,
    total_monthly_usd := some 5, average_daily_usd := none,
    unique_owners := none }


/-! ## Backend: cost estimator and aggregator

The Python processing scripts (the cost estimator and
`data_processing_scripts/aggregate_data.py`) are not part of the source
tree — only their callers, sample outputs and documentation are.  The
definitions below are modelled from the specification (sections 3, 4.2
and 4.3) and are marked as such. -/

/-- Modelled from the spec: NormalizedRecord (section 3) — the estimator
and aggregator input shape, with resources already converted to
canonical units.  The Normalizer itself is not under verification
here. -/
structure NormalizedRecord where
  owner : String
  provider : Option String
  cpu_cores : ℚ
  memory_gb : ℚ
  storage_gb : ℚ
  gpu_units : ℚ
  gpu_model : Option String
  created_at : Option Int
deriving DecidableEq


/-- Modelled from the spec: the immutable rate table threaded into the
Cost Estimator (sections 4.2 and 9). -/
structure RateTable where
  cpu_rate : ℚ
  mem_rate : ℚ
  storage_rate : ℚ
  gpu_base_rate : ℚ
  gpu_multipliers : List (String × ℚ)


/-- Modelled from the spec: the gpu_multiplier lookup keyed by lowercase
model name, defaulting to 1.0 for unknown or absent models
(section 4.2). -/
def gpuMultiplier (rt : RateTable) (model : Option String) : ℚ :=
  match model with
  | none => 1
  | some m => (alookup m rt.gpu_multipliers).getD 1


structure PricingResult where
  daily_cost_usd : ℚ
  monthly_cost_usd : ℚ
deriving DecidableEq


/-- Modelled from the spec: the section 4.2 cost formula.  The monthly
figure is defined as `daily_cost_usd * 30`, never derived
independently. -/
def estimate (rt : RateTable) (r : NormalizedRecord) : PricingResult :=
  let daily := (r.cpu_cores * rt.cpu_rate + r.memory_gb * rt.mem_rate
      + r.storage_gb * rt.storage_rate
      + r.gpu_units * rt.gpu_base_rate * gpuMultiplier rt r.gpu_model) / 30
  { daily_cost_usd := daily, monthly_cost_usd := daily * 30 }


inductive Granularity where
  | hour
  | day
  | week
  | month
deriving DecidableEq


/-- Moment truncations, modelled from the spec (section 4.3): timestamps
are epoch seconds, UTC.  `Int.ediv` and `Int.emod` are Euclidean
(floor-style for the positive divisors used here), matching Python's
floor division. -/
def truncHour (t : Int) : Int := t - Int.emod t 3600


def truncDay (t : Int) : Int := t - Int.emod t 86400


def epochDay (t : Int) : Int := Int.ediv (truncDay t) 86400


/-- Epoch day 0 (1970-01-01) was a Thursday; a day `d` is a Monday
exactly when `d ≡ 4 (mod 7)`, so the preceding Monday of `d` is
`d - ((d - 4) mod 7)`. -/
def truncWeek (t : Int) : Int :=
  (epochDay t - Int.emod (epochDay t - 4) 7) * 86400


/-- Convert days since 1970-01-01 to a civil (year, month, day) triple;
standard integer-arithmetic calendar conversion. -/
def civilFromDays (z0 : Int) : Int × Int × Int :=
  let z := z0 + 719468
  let era := Int.ediv z 146097
  let doe := z - era * 146097
  let yoe := Int.ediv
    (doe - Int.ediv doe 1460 + Int.ediv doe 36524 - Int.ediv doe 146096) 365
  let y := yoe + era * 400
  let doy := doe - (365 * yoe + Int.ediv yoe 4 - Int.ediv yoe 100)
  let mp := Int.ediv (5 * doy + 2) 153
  let d := doy - Int.ediv (153 * mp + 2) 5 + 1
  let m := mp + (if mp < 10 then 3 else (-9 : Int))
  (if m ≤ 2 then y + 1 else y, m, d)


/-- Convert a civil (year, month, day) date to days since 1970-01-01. -/
def daysFromCivil (y m d : Int) : Int :=
  let y2 := if m ≤ 2 then y - 1 else y
  let era := Int.ediv y2 400
  let yoe := y2 - era * 400
  let mp := Int.emod (m + 9) 12
  let doy := Int.ediv (153 * mp + 2) 5 + d - 1
  let doe := yoe * 365 + Int.ediv yoe 4 - Int.ediv yoe 100 + doy
  era * 146097 + doe - 719468


def truncMonth (t : Int) : Int :=
  match civilFromDays (epochDay t) with
  | (y, m, _) => daysFromCivil y m 1 * 86400


def bucketKey : Granularity → Int → Int
  | Granularity.hour, t => truncHour t
  | Granularity.day, t => truncDay t
  | Granularity.week, t => truncWeek t
  | Granularity.month, t => truncMonth t


structure BucketAggregate where
  bucket_key : String
  total_cost_usd : ℚ
  record_count : ℕ
deriving DecidableEq


structure ProviderStatistic where
  provider_address : String
  lease_count : ℕ
  total_daily_usd : ℚ
  total_monthly_usd : ℚ
  average_daily_usd : ℚ
  unique_owners : ℕ
deriving DecidableEq


structure DashboardSummary where
  total_active_leases : ℕ
  total_daily_cost_usd : ℚ
  total_monthly_cost_usd : ℚ
  average_daily_cost_usd : ℚ
  unique_owners : ℕ
  unique_providers : ℕ
deriving DecidableEq


abbrev CostedRecord := NormalizedRecord × PricingResult


/-- Modelled from the spec: the sparse, chronologically ascending bucket
sequence for one granularity (section 4.3); a bucket's cost is the sum
of its members' daily costs, and records without a timestamp are
excluded. -/
def bucketsFor (g : Granularity) (records : List CostedRecord) :
    List BucketAggregate :=
  let keys := ((records.filterMap (fun r => r.1.created_at)).map
    (bucketKey g)).dedup
  (List.insertionSort (fun a b : Int => a ≤ b) keys).map (fun k =>
    let members := records.filter (fun r =>
      r.1.created_at.any (fun t => bucketKey g t == k))
    { bucket_key := toString k
      total_cost_usd := (members.map (fun r => r.2.daily_cost_usd)).sum
      record_count := members.length })


/-- Standard lexicographic order on strings, expressed on the underlying
character lists (it agrees with the library order on String by
String.lt_iff_toList_lt). -/
def strLe (a b : String) : Prop := ¬ b.data < a.data


instance : DecidableRel strLe :=
  fun a b => inferInstanceAs (Decidable (¬ b.data < a.data))


/-- Modelled from the spec: the distinct non-null provider addresses,
sorted ascending for deterministic output (section 4.3). -/
def providerAddresses (records : List CostedRecord) : List String :=
  List.insertionSort strLe
    ((records.filterMap (fun r => r.1.provider)).dedup)


/-- Modelled from the spec: ProviderStatistic for one provider address
(section 3). -/
def providerStatFor (records : List CostedRecord) (addr : String) :
    ProviderStatistic :=
  let mine := records.filter (fun r => r.1.provider == some addr)
  { provider_address := addr
    lease_count := mine.length
    total_daily_usd := (mine.map (fun r => r.2.daily_cost_usd)).sum
    total_monthly_usd := (mine.map (fun r => r.2.monthly_cost_usd)).sum
    average_daily_usd :=
      (mine.map (fun r => r.2.daily_cost_usd)).sum / (mine.length : ℚ)
    unique_owners := ((mine.map (fun r => r.1.owner)).dedup).length }


/-- Modelled from the spec: the network-wide DashboardSummary
(section 3), derived as sums, counts and averages over the active
record set. -/
def summaryOf (records : List CostedRecord) : DashboardSummary :=
  { total_active_leases := records.length
    total_daily_cost_usd := (records.map (fun r => r.2.daily_cost_usd)).sum
    total_monthly_cost_usd :=
      (records.map (fun r => r.2.monthly_cost_usd)).sum
    average_daily_cost_usd :=
      (records.map (fun r => r.2.daily_cost_usd)).sum /
        (records.length : ℚ)
    unique_owners := ((records.map (fun r => r.1.owner)).dedup).length
    unique_providers :=
      ((records.filterMap (fun r => r.1.provider)).dedup).length }


structure AggregateResult where
  buckets : List (Granularity × List BucketAggregate)
  providers : List ProviderStatistic
  summary : DashboardSummary


/-- Modelled from the spec: the aggregate contract of section 4.3. -/
def aggregate (records : List CostedRecord) (gs : List Granularity) :
    AggregateResult :=
  { buckets := gs.map (fun g => (g, bucketsFor g records))
    providers := (providerAddresses records).map (providerStatFor records)
    summary := summaryOf records }


/-! ## C1 — the monthly = 30 × daily invariant

The estimator maintains the invariant by construction.  However the
repository's own recorded sample output (src/TEST_RESULTS.md, "Sample
Data Analysis") violates exact equality at the statistic level: its
daily and monthly figures are rounded to cents independently, e.g.
119.95 × 30 = 3598.50 while the recorded monthly total is 3598.56. -/

/-- Transcribed from src/TEST_RESULTS.md lines 276-288 (Dashboard
Summary sample output). -/
structure RecordedSummary where
  total_active_leases : ℕ
  total_daily_cost_usd : ℚ
  total_monthly_cost_usd : ℚ
  average_daily_cost_usd : ℚ
  unique_owners : ℕ
  unique_providers : ℕ


def recordedDashboardSummary : RecordedSummary :=
  { total_active_leases := 3
    total_daily_cost_usd := 199.87
    total_monthly_cost_usd := 5996.12
    average_daily_cost_usd := 66.62
    unique_owners := 3
    unique_providers := 2 }


/-- Transcribed from src/TEST_RESULTS.md lines 290-313 (Provider
Statistics sample output); the JSON uses the field name
total_leases. -/
structure RecordedProviderStat where
  provider_address : String
  total_leases : ℕ
  total_daily_usd : ℚ
  total_monthly_usd : ℚ
  average_daily_usd : ℚ
  unique_owners : ℕ


def recordedProvider2abc : RecordedProviderStat :=
  { provider_address := "akash1testprovider2abc"
    total_leases := 1
    total_daily_usd := 119.95
    total_monthly_usd := 3598.56
    average_daily_usd := 119.95
    unique_owners := 1 }


def recordedProvider1xyz : RecordedProviderStat :=
  { provider_address := "akash1testprovider1xyz"
    total_leases := 2
    total_daily_usd := 79.92
    total_monthly_usd := 2397.56
    average_daily_usd := 39.96
    unique_owners := 2 }


/-! ## C2 — Scenario A -/

def rateTableA : RateTable :=
  { cpu_rate := 1
    mem_rate := 1/5
    storage_rate := 3/100
    gpu_base_rate := 100
    gpu_multipliers := [("a100", 7/2), ("v100", 2), ("rtx4090", 5/2)] }


def recA1 : NormalizedRecord :=
  { owner := "owner1", provider := some "P1", cpu_cores := 1,
    memory_gb := 2, storage_gb := 10, gpu_units := 0,
    gpu_model := none, created_at := none }


def recA2 : NormalizedRecord :=
  { owner := "owner2", provider := some "P1", cpu_cores := 2,
    memory_gb := 4, storage_gb := 20, gpu_units := 0,
    gpu_model := none, created_at := none }


def recA3 : NormalizedRecord :=
  { owner := "owner3", provider := some "P2", cpu_cores := 1,
    memory_gb := 1, storage_gb := 5, gpu_units := 1,
    gpu_model := some "a100", created_at := none }


def scenarioA : List CostedRecord :=
  [(recA1, estimate rateTableA recA1),
   (recA2, estimate rateTableA recA2),
   (recA3, estimate rateTableA recA3)]


def allGranularities : List Granularity :=
  [Granularity.hour, Granularity.day, Granularity.week, Granularity.month]


/-! ## C5 — aggregating an empty record set -/

/-- Transcribed from src/dashboard/akalysis/src/App.js lines 53-65: the
all-zero fallback summary the frontend substitutes when no data is
available. -/
def fallbackSummary : DashboardSummary :=
  { total_active_leases := 0
    total_daily_cost_usd := 0
    total_monthly_cost_usd := 0
    average_daily_cost_usd := 0
    unique_owners := 0
    unique_providers := 0 }


/-! ## C6 — the health endpoint on an empty data directory -/

structure HealthResponse where
  status : String
  data_available : Bool
deriving DecidableEq


/-- Modelled from the spec: data/api_server.py is not in the source
tree.  Per the specification (section 6) and the fixed code quoted in
src/TEST_RESULTS.md lines 74-86 (`any(DATA_DIR.glob(...))`), the health
endpoint reports data availability as whether any file matches the data
glob, treating an empty match as false rather than raising. -/
def apiHealth (matchingFiles : List String) : HealthResponse :=
  { status := "healthy", data_available := !matchingFiles.isEmpty }


theorem alookup_upsert {β : Type} (k kk : String) (init : β) (f : β → β)
    (l : List (String × β)) :
    alookup k (upsert kk init f l) =
      if kk = k then some (f ((alookup k l).getD init)) else alookup k l := by
  induction l with
  | nil => by_cases h : kk = k <;> simp [upsert, alookup, h]
  | cons p rest ih =>
    obtain ⟨a, v⟩ := p
    by_cases h1 : a = kk
    · subst h1
      by_cases h2 : a = k <;> simp [upsert, alookup, h2]
    · by_cases h2 : a = k
      · subst h2
        have hkk : ¬ kk = a := fun h => h1 h.symm
        simp [upsert, alookup, h1, hkk]
      · simp [upsert, alookup, h1, h2, ih]


theorem alookup_foldl_groupStep (key : Item → String) (k : String) :
    ∀ (data : List Item) (acc : List (String × GroupAcc)),
      alookup k (data.foldl (groupStep key) acc) =
        match alookup k acc with
        | some g =>
            some ⟨g.name, g.cost + filterTotal key k data,
                  g.leases + filterCount key k data⟩
        | none =>
            if filterCount key k data = 0 then none
            else some ⟨k, filterTotal key k data, filterCount key k data⟩ := by
  intro data
  induction data with
  | nil =>
    intro acc
    cases h : alookup k acc <;>
      simp [filterTotal, filterCount, h]
  | cons i rest ih =>
    intro acc
    have step : List.foldl (groupStep key) acc (i :: rest) =
        List.foldl (groupStep key) (groupStep key acc i) rest := rfl
    rw [step, ih]
    by_cases hk : key i = k
    · have hlook : alookup k (groupStep key acc i) =
          some ((fun g => (⟨g.name, g.cost + costOf i, g.leases + 1⟩ : GroupAcc))
            ((alookup k acc).getD ⟨key i, 0, 0⟩)) := by
        rw [groupStep, alookup_upsert, if_pos hk]
      rw [hlook]
      cases h : alookup k acc with
      | some g =>
        simp only [Option.getD_some, filterTotal, filterCount,
          List.filter_cons, hk, decide_True, if_true, List.map_cons,
          List.sum_cons, List.length_cons, Option.some.injEq,
          GroupAcc.mk.injEq, true_and]
        exact ⟨by ring, by omega⟩
      | none =>
        have hne :
            ¬ ((List.filter (fun j => decide (key j = k)) rest).length + 1 = 0) := by
          omega
        simp only [Option.getD_none, filterTotal, filterCount,
          List.filter_cons, hk, decide_True, if_true, List.map_cons,
          List.sum_cons, List.length_cons, hne, if_false,
          Option.some.injEq, GroupAcc.mk.injEq, true_and]
        exact ⟨by ring, by omega⟩
    · have hlook : alookup k (groupStep key acc i) = alookup k acc := by
        rw [groupStep, alookup_upsert, if_neg hk]
      rw [hlook]
      have ht : filterTotal key k (i :: rest) = filterTotal key k rest := by
        simp [filterTotal, List.filter_cons, hk]
      have hc : filterCount key k (i :: rest) = filterCount key k rest := by
        simp [filterCount, List.filter_cons, hk]
      rw [ht, hc]


/-- Bridge: looking a key up in the grouped association list yields
exactly the filtered cost sum and record count for that key. -/
theorem alookup_groupFold (key : Item → String) (k : String)
    (data : List Item) :
    alookup k (groupFold key data) =
      if filterCount key k data = 0 then none
      else some ⟨k, filterTotal key k data, filterCount key k data⟩ := by
  rw [groupFold, alookup_foldl_groupStep]
  simp [alookup]


theorem filterTotal_perm (key : Item → String) (k : String)
    {l1 l2 : List Item} (h : l1.Perm l2) :
    filterTotal key k l1 = filterTotal key k l2 :=
  List.Perm.sum_eq ((h.filter _).map costOf)


theorem filterCount_perm (key : Item → String) (k : String)
    {l1 l2 : List Item} (h : l1.Perm l2) :
    filterCount key k l1 = filterCount key k l2 :=
  (h.filter _).length_eq


theorem filterTotal_append (key : Item → String) (k : String)
    (l1 l2 : List Item) :
    filterTotal key k (l1 ++ l2) =
      filterTotal key k l1 + filterTotal key k l2 := by
  simp [filterTotal, List.filter_append]


theorem filterCount_append (key : Item → String) (k : String)
    (l1 l2 : List Item) :
    filterCount key k (l1 ++ l2) =
      filterCount key k l1 + filterCount key k l2 := by
  simp [filterCount, List.filter_append]


theorem groupCostAt_eq_filterTotal (key : Item → String) (k : String)
    (data : List Item) :
    groupCostAt key k data = filterTotal key k data := by
  rw [groupCostAt, alookup_groupFold]
  by_cases h : filterCount key k data = 0
  · have hnil : data.filter (fun i => key i = k) = [] :=
      List.length_eq_zero.mp h
    simp [h, filterTotal, hnil]
  · simp [h]


theorem groupLeasesAt_eq_filterCount (key : Item → String) (k : String)
    (data : List Item) :
    groupLeasesAt key k data = filterCount key k data := by
  rw [groupLeasesAt, alookup_groupFold]
  by_cases h : filterCount key k data = 0
  · simp [h]
  · simp [h]


/-! ## C3 — determinism under input reordering -/

/-- C3 (counterexample): shuffling the input record sequence before
aggregation does change an output ordering.  `processTimeSeriesData`
emits buckets in first-occurrence order of their date keys, so swapping
two records with distinct dates reverses the emitted bucket sequence. -/
theorem time_series_order_depends_on_input_order :
    processTimeSeriesData fmt0 [itemA, itemB] ≠
      processTimeSeriesData fmt0 [itemB, itemA] := by
  decide


/-- C3 (amended): permuting the input record sequence does not change any
aggregated value — for every key, the grouped accumulator (summed daily
cost and record count) is identical under both orders, for the date
grouping and the provider grouping alike — but the order in which the
buckets are emitted follows first occurrence and may change. -/
theorem grouped_aggregates_perm_invariant (key : Item → String)
    (l1 l2 : List Item) (h : l1.Perm l2) (k : String) :
    alookup k (groupFold key l1) = alookup k (groupFold key l2) := by
  rw [alookup_groupFold, alookup_groupFold,
    filterTotal_perm key k h, filterCount_perm key k h]


theorem grouped_aggregates_perm_invariant_witness :
    alookup "2025-11-01" (groupFold (dateKeyOf fmt0) [itemA, itemB]) =
      alookup "2025-11-01" (groupFold (dateKeyOf fmt0) [itemB, itemA]) :=
  grouped_aggregates_perm_invariant (dateKeyOf fmt0) [itemA, itemB]
    [itemB, itemA] (List.Perm.swap itemB itemA []) "2025-11-01"


/-! ## C4 — records with no provider address -/

/-- C4 (counterexample): a record with no provider address is not
excluded from the per-provider view: `processProviderData` creates a
provider entry for it, labelled `"undefined..."`. -/
theorem missing_provider_gets_entry :
    (processProviderData [itemNoProvider]).map GroupAcc.name =
        ["undefined..."]
      ∧ processProviderData [itemNoProvider] ≠ [] := by
  decide


/-- C4 (amended): a record with no provider address is grouped into the
per-provider view under the label `"undefined..."` (the string produced
by `undefined + '...'`), incrementing that entry's lease count by one,
while it still counts toward summary totals such as the Total
Deployments statistic. -/
theorem missing_provider_grouped_under_undefined_label (i : Item)
    (h : i.lease_id.bind LeaseId.provider = none) :
    providerKeyOf i = "undefined..."
    ∧ (∀ l, groupLeasesAt providerKeyOf "undefined..." (l ++ [i]) =
        groupLeasesAt providerKeyOf "undefined..." l + 1)
    ∧ (∀ l, totalDeployments (l ++ [i]) = totalDeployments l + 1) := by
  have hkey : providerKeyOf i = "undefined..." := by
    simp [providerKeyOf, h]
    intro hf
    exact absurd hf (by decide)
  refine ⟨hkey, ?_, ?_⟩
  · intro l
    rw [groupLeasesAt_eq_filterCount, groupLeasesAt_eq_filterCount,
      filterCount_append]
    simp [filterCount, hkey]
  · intro l
    simp [totalDeployments]


theorem missing_provider_grouped_under_undefined_label_witness :
    providerKeyOf itemNoProvider = "undefined..."
    ∧ groupLeasesAt providerKeyOf "undefined..." ([] ++ [itemNoProvider]) =
        groupLeasesAt providerKeyOf "undefined..." [] + 1 :=
  ⟨(missing_provider_grouped_under_undefined_label itemNoProvider rfl).1,
   (missing_provider_grouped_under_undefined_label itemNoProvider rfl).2.1 []⟩


/-! ## C9 — records with no pricing -/

/-- C9: a record whose pricing object, or its daily_cost_usd field, is
absent is treated as having daily cost 0: it contributes 0 to every
grouped cost sum (time-series and per-provider alike) and enters the
average/highest/lowest statistics as the value 0, while still
incrementing the corresponding record and lease counts by 1. -/
theorem missing_pricing_counts_as_zero (i : Item)
    (h : i.pricing.bind Pricing.daily_cost_usd = none) :
    costOf i = 0
    ∧ (∀ key k l, groupCostAt key k (l ++ [i]) = groupCostAt key k l)
    ∧ (∀ key k l, groupLeasesAt key k (l ++ [i]) =
        groupLeasesAt key k l + (if key i = k then 1 else 0))
    ∧ (∀ l, sumCosts (l ++ [i]) = sumCosts l)
    ∧ (∀ l, costsList (l ++ [i]) = costsList l ++ [0]) := by
  have hc : costOf i = 0 := by simp [costOf, h]
  refine ⟨hc, ?_, ?_, ?_, ?_⟩
  · intro key k l
    rw [groupCostAt_eq_filterTotal, groupCostAt_eq_filterTotal,
      filterTotal_append]
    have hz : filterTotal key k [i] = 0 := by
      by_cases hk : key i = k <;> simp [filterTotal, hk, hc]
    rw [hz, add_zero]
  · intro key k l
    rw [groupLeasesAt_eq_filterCount, groupLeasesAt_eq_filterCount,
      filterCount_append]
    have hone : filterCount key k [i] = if key i = k then 1 else 0 := by
      by_cases hk : key i = k <;> simp [filterCount, hk]
    rw [hone]
  · intro l
    simp [sumCosts, hc]
  · intro l
    simp [costsList, hc]


theorem missing_pricing_counts_as_zero_witness :
    costOf itemNoPricing = 0
    ∧ groupCostAt providerKeyOf "provider9a..." ([] ++ [itemNoPricing]) =
        groupCostAt providerKeyOf "provider9a..." [] :=
  ⟨(missing_pricing_counts_as_zero itemNoPricing rfl).1,
   (missing_pricing_counts_as_zero itemNoPricing rfl).2.1
      providerKeyOf "provider9a..." []⟩


/-! ## C8 — the average-cost division is guarded -/

/-- C8: the Avg Cost per Deployment statistic, whose denominator is
`data.length`, is only computed in the charts branch of the
CostBreakdown component, and that branch is reached only when the data
is present and non-empty; the division by zero is therefore unreachable
at the component's interface. -/
theorem avg_cost_division_guarded (fmt : Int → String)
    (data : Option (List Item)) (s : CBStats)
    (h : costBreakdown fmt data = CBView.charts s) :
    ∃ d, data = some d ∧ 0 < d.length
      ∧ s.avg = sumCosts d / (d.length : ℚ) := by
  cases data with
  | none => simp [costBreakdown] at h
  | some d =>
    by_cases hd : d.length = 0
    · simp [costBreakdown, hd] at h
    · refine ⟨d, rfl, Nat.pos_of_ne_zero hd, ?_⟩
      simp only [costBreakdown, hd, if_false, CBView.charts.injEq] at h
      rw [← h]
      rfl


theorem avg_cost_division_guarded_witness :
    ∃ d, (some [itemA] : Option (List Item)) = some d ∧ 0 < d.length
      ∧ (cbStats fmt0 [itemA]).avg = sumCosts d / (d.length : ℚ) :=
  avg_cost_division_guarded fmt0 (some [itemA]) (cbStats fmt0 [itemA]) rfl


/-! ## C10 — top-provider list: at most six entries, cost-descending -/

/-- C10: for every non-empty input data array, `processProviderData`
returns at most 6 provider entries, ordered by summed daily cost in
non-increasing order. -/
theorem top_providers_at_most_six_sorted (data : List Item)
    (hne : data ≠ []) :
    (processProviderData data).length ≤ 6
    ∧ List.Sorted costDescRel (processProviderData data) := by
  constructor
  · exact List.length_take_le 6 _
  · exact List.Pairwise.sublist (List.take_sublist 6 _)
      (List.sorted_insertionSort costDescRel _)


theorem top_providers_at_most_six_sorted_witness :
    (processProviderData [itemA]).length ≤ 6
    ∧ List.Sorted costDescRel (processProviderData [itemA]) :=
  top_providers_at_most_six_sorted [itemA] (List.cons_ne_nil itemA [])


/-! ## C7 — tie handling in the provider sort

The comparator returns `-1` for both argument orders of a tied pair, so
it is not a consistent comparison function and ECMAScript leaves the
relative order of tied entries implementation-defined: the code performs
no tie-break by provider address and guarantees no deterministic tied
order. -/

/-- C7 (counterexample): sorting `[rowZ, rowA]` — two rows tied on cost
whose addresses are in descending order — on the cost field descending,
the outcome that leaves the larger address first is an allowed outcome
of the sort (the comparator is not a consistent comparison function, so
any permutation is allowed), contradicting the claimed
address-ascending tie-break; a second, different outcome is also
allowed, contradicting the claimed determinism among tied entries. -/
theorem sort_ties_not_broken_by_address :
    costVal rowZ = costVal rowA
    ∧ providerVal rowA < providerVal rowZ
    ∧ sortOutcome (pcCompare SortField.cost SortDir.desc)
        [rowZ, rowA] [rowZ, rowA]
    ∧ sortOutcome (pcCompare SortField.cost SortDir.desc)
        [rowZ, rowA] [rowA, rowZ]
    ∧ ([rowZ, rowA] : List PRow) ≠ [rowA, rowZ] := by
  have hnc : ¬ consistentComparator (pcCompare SortField.cost SortDir.desc) := by
    intro hcons
    have h12 : pcCompare SortField.cost SortDir.desc rowZ rowA = -1 := by
      decide
    have h21 : pcCompare SortField.cost SortDir.desc rowA rowZ = -1 := by
      decide
    have h := hcons.2.1 rowZ rowA
    rw [h12, h21] at h
    exact absurd (h.mp (by norm_num)) (by norm_num)
  refine ⟨by decide, ?_,
    ⟨List.Perm.refl _, fun hc => absurd hc hnc⟩,
    ⟨List.Perm.swap rowA rowZ [], fun hc => absurd hc hnc⟩,
    by decide⟩
  rw [String.lt_iff_toList_lt]
  decide


/-- C7 (amended): there is no tie-break by provider address in the
provider sort: on a tie in the chosen sort field the comparator returns
`-1` for both argument orders (never `0`) without consulting the
provider address; consequently it is not a consistent comparison
function — for any field and direction — so ECMAScript leaves the
displayed order of tied entries implementation-defined rather than
stable, deterministic and address-ascending; every allowed outcome of
the sort still displays exactly the rows of the input, as a
permutation. -/
theorem sort_ties_implementation_defined :
    (∀ dir a b, costVal a = costVal b →
      pcCompare SortField.cost dir a b = -1
      ∧ pcCompare SortField.cost dir b a = -1)
    ∧ (∀ field dir, ¬ consistentComparator (pcCompare field dir))
    ∧ (∀ field dir input output,
        sortOutcome (pcCompare field dir) input output →
          input.Perm output) := by
  refine ⟨?_, ?_, ?_⟩
  · intro dir a b h
    cases dir <;> simp [pcCompare, h]
  · intro field dir hcons
    have hself : pcCompare field dir rowZ rowZ = -1 := by
      cases field <;> cases dir <;> simp [pcCompare, lt_irrefl]
    have h := hcons.2.1 rowZ rowZ
    rw [hself] at h
    exact absurd (h.mp (by norm_num)) (by norm_num)
  · intro field dir input output h
    exact h.1


theorem sort_ties_implementation_defined_witness :
    (pcCompare SortField.cost SortDir.desc rowZ rowA = -1
      ∧ pcCompare SortField.cost SortDir.desc rowA rowZ = -1)
    ∧ ([rowZ, rowA] : List PRow).Perm [rowA, rowZ] :=
  ⟨sort_ties_implementation_defined.1 SortDir.desc rowZ rowA (by decide),
   sort_ties_implementation_defined.2.2 SortField.cost SortDir.desc
     [rowZ, rowA] [rowA, rowZ]
     ⟨List.Perm.swap rowA rowZ [], fun hc =>
        absurd hc
          (sort_ties_implementation_defined.2.1 SortField.cost SortDir.desc)⟩⟩


/-- C1 (counterexample): in the repository's recorded per-provider
statistics, total_monthly_usd is not exactly 30 times total_daily_usd:
3598.56 ≠ 119.95 × 30 = 3598.50. -/
theorem recorded_monthly_not_thirty_times_daily :
    recordedProvider2abc.total_monthly_usd ≠
      recordedProvider2abc.total_daily_usd * 30 := by
  norm_num [recordedProvider2abc]


/-- C1 (amended): every PricingResult produced by the estimator
satisfies monthly_cost_usd = daily_cost_usd × 30 exactly, but in the
recorded per-provider statistics and dashboard summary — whose daily and
monthly figures are rounded to cents independently — total_monthly
agrees with 30 × total_daily only up to $0.06, not exactly. -/
theorem monthly_thirty_times_daily_up_to_rounding :
    (∀ rt r, (estimate rt r).monthly_cost_usd =
      (estimate rt r).daily_cost_usd * 30)
    ∧ |recordedProvider2abc.total_monthly_usd -
        recordedProvider2abc.total_daily_usd * 30| ≤ 6/100
    ∧ |recordedProvider1xyz.total_monthly_usd -
        recordedProvider1xyz.total_daily_usd * 30| ≤ 6/100
    ∧ |recordedDashboardSummary.total_monthly_cost_usd -
        recordedDashboardSummary.total_daily_cost_usd * 30| ≤ 6/100 := by
  refine ⟨fun rt r => rfl, ?_, ?_, ?_⟩ <;>
    · rw [abs_le]
      constructor <;>
        norm_num [recordedProvider2abc, recordedProvider1xyz,
          recordedDashboardSummary]


/-- C2: with the given rates, Scenario A yields per-record monthly costs
$1.70, $3.40 and $351.35, a total monthly cost of $356.45, 2 unique
providers, and for provider P1 a lease count of 2 with $5.10 total
monthly. -/
theorem scenarioA_results :
    (estimate rateTableA recA1).monthly_cost_usd = 17/10
    ∧ (estimate rateTableA recA2).monthly_cost_usd = 17/5
    ∧ (estimate rateTableA recA3).monthly_cost_usd = 7027/20
    ∧ (aggregate scenarioA allGranularities).summary.total_monthly_cost_usd
        = 7129/20
    ∧ (aggregate scenarioA allGranularities).summary.unique_providers = 2
    ∧ ((aggregate scenarioA allGranularities).providers.find?
        (fun s => s.provider_address == "P1")).map
          ProviderStatistic.lease_count = some 2
    ∧ ((aggregate scenarioA allGranularities).providers.find?
        (fun s => s.provider_address == "P1")).map
          ProviderStatistic.total_monthly_usd = some (51/10) := by
  have hfind : (aggregate scenarioA allGranularities).providers.find?
      (fun s => s.provider_address == "P1") =
      some (providerStatFor scenarioA "P1") := rfl
  have hmine : scenarioA.filter (fun r => r.1.provider == some "P1") =
      [(recA1, estimate rateTableA recA1),
       (recA2, estimate rateTableA recA2)] := rfl
  refine ⟨?_, ?_, ?_, ?_, rfl, ?_, ?_⟩
  · norm_num [estimate, gpuMultiplier, rateTableA, recA1]
  · norm_num [estimate, gpuMultiplier, rateTableA, recA2]
  · norm_num [estimate, gpuMultiplier, rateTableA, recA3, alookup]
  · show (summaryOf scenarioA).total_monthly_cost_usd = 7129/20
    norm_num [summaryOf, scenarioA, estimate, gpuMultiplier, rateTableA,
      recA1, recA2, recA3, alookup]
  · rw [hfind]
    rfl
  · rw [hfind]
    simp only [providerStatFor, hmine, Option.map_some]
    norm_num [estimate, gpuMultiplier, rateTableA, recA1, recA2]


/-- C5: aggregating an empty record set returns a well-formed payload —
a DashboardSummary with every count and cost equal to 0 (identical to
the frontend's all-zero fallback) and empty bucket and provider
sequences; the aggregator is a total function, so no error or null is
possible. -/
theorem aggregate_empty_wellformed (gs : List Granularity) :
    (aggregate [] gs).summary = fallbackSummary
    ∧ (aggregate [] gs).providers = []
    ∧ (aggregate [] gs).buckets = gs.map (fun g => (g, [])) := by
  refine ⟨?_, rfl, rfl⟩
  show summaryOf [] = fallbackSummary
  simp [summaryOf, fallbackSummary]


/-- C6: for every state of the data directory, the health endpoint
returns a status/data_available object; with no matching files,
data_available is false, and the endpoint is a total function, so no
exception is possible. -/
theorem health_empty_directory_ok :
    apiHealth [] = { status := "healthy", data_available := false }
    ∧ ∀ files, ((apiHealth files).data_available = false ↔ files = []) := by
  refine ⟨rfl, ?_⟩
  intro files
  cases files <;> simp [apiHealth]


end Akalysis
